import Mathlib

/-!
Shallow embedding of the mcp-server-as-http-core repository (Rust sources in
src/): the error taxonomy (src/error.rs), the process bridge (src/process.rs),
the provisioning pipeline of the HTTP server (src/http_server.rs), the runtime
selector (src/runtime.rs), the auth middleware (src/auth.rs) and the
environment-driven auth configuration (src/config.rs).

External effects (pipe reads, the git tool, the shell, the filesystem) are
modelled by explicit outcome parameters; every function of the repository that
a claim touches is translated from its Rust source.
-/

/-- Error taxonomy of src/error.rs (enum McpCoreError); each variant carries
its message string. The SerializationError and IoError variants wrap foreign
error types and are represented by their display strings. -/
inductive McpCoreError where
  | AuthenticationError (message : String)
  | ConfigurationError (message : String)
  | ProcessError (message : String)
  | RuntimeError (message : String)
  | HttpServerError (message : String)
  | SerializationError (message : String)
  | IoError (message : String)
  deriving DecidableEq, Repr

deriving instance DecidableEq for Except

/-- Result alias of src/error.rs (type McpCoreResult). -/
abbrev McpCoreResult (α : Type) := Except McpCoreError α

/-- Request structure of src/process.rs (struct McpRequest). -/
structure McpRequest where
  command : String
  deriving DecidableEq, Repr

/-- Response structure of src/process.rs (struct McpResponse). -/
structure McpResponse where
  result : String
  deriving DecidableEq, Repr

/-- Rust str::trim — removes whitespace from both ends of the string.
Modelled over the character list with Char.isWhitespace standing for Rust's
whitespace predicate (they agree on the ASCII whitespace of this protocol). -/
def rustTrim (s : String) : String :=
  String.mk (List.rdropWhile Char.isWhitespace (List.dropWhile Char.isWhitespace s.data))

/-- Outcome of one attempt to read a line from the child's stdout, as seen by
read_response_with_timeout: read_line returned data (the bytes appended,
newline included when one was read), returned Ok(0) (EOF), failed with an I/O
error, or the bounded wait elapsed first. -/
inductive ReadEvent where
  | line (content : String)
  | eof
  | ioError (e : String)
  | timedOut
  deriving DecidableEq, Repr

/-- McpProcess::read_response_with_timeout (src/process.rs lines 198-240):
on Ok(0) an EOF ProcessError; on data, an empty-after-trim line is a
ProcessError and otherwise the trimmed line is returned; a read error is a
ProcessError; an elapsed wait is a ProcessError naming the timeout in
seconds. -/
def read_response_with_timeout (timeoutSecs : Nat) (ev : ReadEvent) : McpCoreResult String :=
  match ev with
  | .eof => .error (.ProcessError "MCP server closed the connection (EOF)")
  | .line s =>
      if rustTrim s = "" then
        .error (.ProcessError "MCP server returned an empty line")
      else
        .ok (rustTrim s)
  | .ioError e => .error (.ProcessError ("Failed to read from MCP stdout: " ++ e))
  | .timedOut =>
      .error (.ProcessError
        ("MCP server response timeout (" ++ toString timeoutSecs ++ " seconds)"))

/-- The bounded wait passed by McpProcess::query to read_response_with_timeout:
Duration::from_secs(30) at src/process.rs line 270. -/
def query_timeout_secs : Nat := 30

/-- The bounded wait passed by McpProcess::initialize to
read_response_with_timeout: Duration::from_secs(30) at src/process.rs
line 137. -/
def init_timeout_secs : Nat := 30

/-- McpProcess::query (src/process.rs lines 243-278): write the command plus a
newline (writeErr models a failed write_all, flushErr a failed flush), then
read one line within the bounded wait and wrap it in McpResponse. -/
def query (request : McpRequest) (writeErr flushErr : Option String) (ev : ReadEvent) :
    McpCoreResult McpResponse :=
  match writeErr with
  | some e => .error (.ProcessError ("Failed to write to MCP stdin: " ++ e))
  | none =>
    match flushErr with
    | some e => .error (.ProcessError ("Failed to flush MCP stdin: " ++ e))
    | none =>
      match read_response_with_timeout query_timeout_secs ev with
      | .error e => .error e
      | .ok line => .ok (McpResponse.mk line)

/-- A child that echoes each input line verbatim: query sends
request.command ++ newline, so read_line hands back exactly that text. -/
def echoQuery (x : String) : McpCoreResult McpResponse :=
  query (McpRequest.mk x) none none (ReadEvent.line (x ++ "\n"))

/-- Filesystem model for the provisioning pipeline: the list of paths that
currently exist (directories and the version-control metadata markers). -/
structure FS where
  paths : List String
  deriving DecidableEq, Repr

/-- Whether a path exists in the filesystem model (tokio fs metadata is_ok). -/
def FS.existsPath (fs : FS) (p : String) : Bool :=
  fs.paths.contains p

/-- Effect of tokio fs create_dir_all on the filesystem model: creates the
directory if absent and succeeds unchanged when it already exists. -/
def createDirAll (fs : FS) (p : String) : FS :=
  if fs.existsPath p then fs else FS.mk (p :: fs.paths)

/-- Rust Debug formatting of the Option i32 returned by status.code(). -/
def fmtOptInt : Option Int → String
  | some c => "Some(" ++ toString c ++ ")"
  | none => "None"

/-- Outcome of invoking the external git clone tool: it completed with an
exit status, or could not be launched at all. A successful clone populates the
target directory, leaving a .git metadata marker there. -/
inductive CloneOutcome where
  | completed (success : Bool) (code : Option Int)
  | launchError (e : String)
  deriving DecidableEq, Repr

/-- McpHttpServer::clone_repository_if_needed (src/http_server.rs lines
114-186): if work_dir/.git already exists the clone is skipped with Ok;
otherwise git clone is invoked, Ok on success and a ProcessError naming the
exit code and repository on failure. Returns the filesystem after the step,
whether the external clone was invoked, and the result value. -/
def clone_repository_if_needed (repository_url work_dir : String) (fs : FS)
    (git : CloneOutcome) : FS × Bool × McpCoreResult Unit :=
  let git_dir := work_dir ++ "/.git"
  if fs.existsPath git_dir then
    (fs, false, .ok ())
  else
    match git with
    | .launchError e =>
        (fs, true, .error (.ProcessError ("Failed to execute git clone: " ++ e)))
    | .completed true _ =>
        (FS.mk (git_dir :: fs.paths), true, .ok ())
    | .completed false code =>
        (fs, true,
          .error (.ProcessError
            ("Git clone failed with exit code " ++ fmtOptInt code ++ ": " ++ repository_url)))

/-- One env insertion on the Command builder's explicit environment map
(Command::env): a later insertion for the same key replaces the earlier
value. -/
def envInsert (m : List (String × String)) (kv : String × String) : List (String × String) :=
  m.filter (fun p => p.1 != kv.1) ++ [kv]

/-- Lookup in the environment map. -/
def envLookup (m : List (String × String)) (k : String) : Option String :=
  (m.find? (fun p => p.1 == k)).map (fun p => p.2)

/-- The child environment built by McpHttpServer::execute_build_command
(src/http_server.rs lines 207-213): first envs(env_vars) inserts the
spec-declared entries, then the loop over std env vars inserts every ambient
variable, each insertion replacing any earlier value for the same key. -/
def execute_build_command_env (env_vars ambient : List (String × String)) :
    List (String × String) :=
  ambient.foldl envInsert (env_vars.foldl envInsert [])

/-- Status of an exited child command: whether status.success() holds and the
exit code status.code() reports. -/
structure ExitStatus where
  success : Bool
  code : Option Int
  deriving DecidableEq, Repr

/-- Outcome of running a one-shot external command to completion. -/
inductive CmdOutcome where
  | completed (status : ExitStatus)
  | launchError (e : String)
  deriving DecidableEq, Repr

/-- McpHttpServer::execute_build_command (src/http_server.rs lines 189-269):
runs the build command through the shell; Ok when status.success(), otherwise
a ProcessError naming the exit code and the command; a launch failure is a
ProcessError as well. -/
def execute_build_command (build_cmd : String) (out : CmdOutcome) : McpCoreResult Unit :=
  match out with
  | .launchError e =>
      .error (.ProcessError
        ("Failed to execute build command '" ++ build_cmd ++ "': " ++ e))
  | .completed st =>
      if st.success then .ok ()
      else
        .error (.ProcessError
          ("Build command failed with exit code " ++ fmtOptInt st.code ++ ": " ++ build_cmd))

/-- Server configuration of src/config.rs (struct McpServerConfig); the env
HashMap is modelled as an association list with unique keys. -/
structure McpServerConfig where
  repository : Option String
  build_command : Option String
  command : String
  args : List String
  env : List (String × String)
  deriving DecidableEq, Repr

/-- McpHttpServer::get_server_work_dir (src/http_server.rs lines 109-111). -/
def get_server_work_dir (server_name : String) : String :=
  "/tmp/mcp-servers/" ++ server_name

/-- The externally visible steps of McpHttpServer::start_mcp_process, in the
order the source attempts them. -/
inductive SetupStep where
  | createDir
  | cloneStep
  | buildStep
  | spawnStep
  deriving DecidableEq, Repr

/-- Rank of a step in the pipeline order of start_mcp_process. -/
def stepRank : SetupStep → Nat
  | .createDir => 0
  | .cloneStep => 1
  | .buildStep => 2
  | .spawnStep => 3

/-- A trace is ordered when its steps occur in strictly increasing pipeline
order. -/
def orderedSteps (t : List SetupStep) : Prop :=
  List.Pairwise (fun a b => stepRank a < stepRank b) t

instance (t : List SetupStep) : Decidable (orderedSteps t) := by
  unfold orderedSteps; infer_instance

/-- External outcomes consumed by one run of start_mcp_process. -/
structure StartEffects where
  fs : FS
  mkdirErr : Option String
  cloneOut : CloneOutcome
  buildOut : CmdOutcome
  spawnErr : Option String
  deriving DecidableEq, Repr

/-- McpHttpServer::start_mcp_process (src/http_server.rs lines 61-106):
derives the work dir, creates it, clones the repository if configured, runs
the build command if configured, then spawns the process; each failure aborts
the pipeline. Returns the trace of attempted steps and the result. -/
def start_mcp_process (config : McpServerConfig) (server_name : String)
    (ef : StartEffects) : List SetupStep × McpCoreResult Unit :=
  let work_dir := get_server_work_dir server_name
  match ef.mkdirErr with
  | some e =>
      ([.createDir],
        .error (.ProcessError
          ("Failed to create work directory '" ++ work_dir ++ "': " ++ e)))
  | none =>
    let afterClone : List SetupStep × McpCoreResult Unit :=
      match config.repository with
      | some url => ([.cloneStep], (clone_repository_if_needed url work_dir ef.fs ef.cloneOut).2.2)
      | none => ([], .ok ())
    match afterClone.2 with
    | .error e => ([SetupStep.createDir] ++ afterClone.1, .error e)
    | .ok _ =>
      let buildRes : List SetupStep × McpCoreResult Unit :=
        match config.build_command with
        | some cmd => ([.buildStep], execute_build_command cmd ef.buildOut)
        | none => ([], .ok ())
      match buildRes.2 with
      | .error e => ([SetupStep.createDir] ++ afterClone.1 ++ buildRes.1, .error e)
      | .ok _ =>
        match ef.spawnErr with
        | some e =>
            ([SetupStep.createDir] ++ afterClone.1 ++ buildRes.1 ++ [SetupStep.spawnStep],
              .error (.ProcessError ("Failed to spawn MCP process: " ++ e)))
        | none =>
            ([SetupStep.createDir] ++ afterClone.1 ++ buildRes.1 ++ [SetupStep.spawnStep],
              .ok ())

/-- Runtime strategies of src/runtime.rs (NodeRuntime, PythonRuntime,
GoRuntime). -/
inductive RuntimeKind where
  | node
  | python
  | go
  deriving DecidableEq, Repr

/-- Rust str::to_lowercase, modelled character-wise over the string data
(they agree on the ASCII runtime names this selector compares). -/
def rustToLowercase (s : String) : String :=
  String.mk (s.data.map Char.toLower)

/-- create_runtime (src/runtime.rs lines 317-326): case-insensitive match on
the runtime name; unrecognized names yield a RuntimeError naming the value. -/
def create_runtime (runtime_type : String) : McpCoreResult RuntimeKind :=
  match rustToLowercase runtime_type with
  | "node" | "nodejs" | "javascript" | "typescript" => .ok .node
  | "python" | "python3" | "py" => .ok .python
  | "go" | "golang" => .ok .go
  | _ => .error (.RuntimeError ("Unsupported runtime type: " ++ runtime_type))

/-- The recognized runtime names (the literal patterns of create_runtime). -/
def recognizedRuntimeNames : List String :=
  ["node", "nodejs", "javascript", "typescript", "python", "python3", "py", "go", "golang"]

/-- Whether a selector result is a ConfigurationError. -/
def resultIsConfigurationError : McpCoreResult RuntimeKind → Bool
  | .error (.ConfigurationError _) => true
  | _ => false

mutual
/-- JSON values as produced by the serde parser for the initialize reply. -/
inductive JVal where
  | null
  | bool (b : Bool)
  | num (n : Int)
  | str (s : String)
  | arr (xs : JArr)
  | obj (fields : JObj)

/-- A JSON array, spelled out so recursion over it is structural. -/
inductive JArr where
  | nil
  | cons (hd : JVal) (tl : JArr)

/-- A JSON object: an ordered list of key-value fields. -/
inductive JObj where
  | nil
  | cons (key : String) (val : JVal) (tl : JObj)
end

/-- Lookup of a top-level field by key (serde_json Value::get on objects). -/
def JObj.lookup : JObj → String → Option JVal
  | .nil, _ => none
  | .cons k v tl, key => if k = key then some v else JObj.lookup tl key

/-- response.get(key): a field lookup that yields none on non-objects. -/
def JVal.getField : JVal → String → Option JVal
  | .obj fields, key => fields.lookup key
  | _, _ => none

mutual
/-- Display rendering of a JSON value (serde_json Value Display, string
escaping elided). -/
def renderJVal : JVal → String
  | .null => "null"
  | .bool true => "true"
  | .bool false => "false"
  | .num n => toString n
  | .str s => "\"" ++ s ++ "\""
  | .arr xs => "[" ++ renderJArr xs ++ "]"
  | .obj fs => "\x7b" ++ renderJObj fs ++ "\x7d"

/-- Rendering of the comma-separated elements of a JSON array. -/
def renderJArr : JArr → String
  | .nil => ""
  | .cons hd .nil => renderJVal hd
  | .cons hd (.cons hd2 tl) => renderJVal hd ++ "," ++ renderJArr (JArr.cons hd2 tl)

/-- Rendering of the comma-separated fields of a JSON object. -/
def renderJObj : JObj → String
  | .nil => ""
  | .cons k v .nil => "\"" ++ k ++ "\":" ++ renderJVal v
  | .cons k v (.cons k2 v2 tl) =>
      "\"" ++ k ++ "\":" ++ renderJVal v ++ "," ++ renderJObj (JObj.cons k2 v2 tl)
end

/-- External outcomes consumed by one run of McpProcess::initialize: the write
and flush of the initialize request, the read of the reply, the serde parse of
the reply line (none models a parse failure), and the write and flush of the
initialized notification. -/
structure InitEffects where
  writeInitErr : Option String
  flushInitErr : Option String
  replyEvent : ReadEvent
  parsed : Option JVal
  writeNotifErr : Option String
  flushNotifErr : Option String

/-- McpProcess::initialize (src/process.rs lines 93-195), named initHandshake
here: write the initialize request, read one reply within the bounded wait,
parse it defensively (a parse failure only warns; an explicit error field
aborts with a ProcessError), then write the initialized notification. The
Bool records whether the notification was written and flushed. -/
def initHandshake (ef : InitEffects) : Bool × McpCoreResult Unit :=
  match ef.writeInitErr with
  | some e => (false, .error (.ProcessError ("Failed to write initialize request: " ++ e)))
  | none =>
    match ef.flushInitErr with
    | some e => (false, .error (.ProcessError ("Failed to flush initialize request: " ++ e)))
    | none =>
      match read_response_with_timeout init_timeout_secs ef.replyEvent with
      | .error e => (false, .error e)
      | .ok _ =>
        let errField : Option JVal :=
          match ef.parsed with
          | some response => response.getField "error"
          | none => none
        match errField with
        | some err =>
            (false, .error (.ProcessError ("MCP initialization error: " ++ renderJVal err)))
        | none =>
          match ef.writeNotifErr with
          | some e =>
              (false,
                .error (.ProcessError ("Failed to write initialized notification: " ++ e)))
          | none =>
            match ef.flushNotifErr with
            | some e =>
                (false,
                  .error (.ProcessError ("Failed to flush initialized notification: " ++ e)))
            | none => (true, .ok ())

/-- Auth configuration of src/config.rs (struct AuthConfig). -/
structure AuthConfig where
  api_key : Option String
  enabled : Bool
  deriving DecidableEq, Repr

/-- Rust str::parse for bool: only the exact strings are accepted. -/
def parseRustBool : String → Option Bool
  | "true" => some true
  | "false" => some false
  | _ => none

/-- AuthConfig::from_env (src/config.rs lines 114-127): api_key from
HTTP_API_KEY, disable_auth from DISABLE_AUTH (default and parse fallback
false); enabled when auth is not disabled and an api key is present. -/
def AuthConfig.from_env (httpApiKey disableAuthVar : Option String) : AuthConfig :=
  let api_key := httpApiKey
  let disable_auth := (parseRustBool (disableAuthVar.getD "false")).getD false
  AuthConfig.mk api_key (!disable_auth && api_key.isSome)

/-- The Authorization header of a request as the middleware observes it:
absent, present but not valid as a string, or present with a value. -/
inductive HeaderVal where
  | missing
  | invalidBytes
  | val (s : String)
  deriving DecidableEq, Repr

/-- Auth error response of src/auth.rs (struct AuthError). -/
structure AuthError where
  error : String
  message : String
  deriving DecidableEq, Repr

/-- bearer_auth_middleware (src/auth.rs lines 22-93): forwards unchanged when
auth is disabled or no key is configured; otherwise rejects a missing or
malformed header and compares the token after the Bearer prefix with the
configured key. Ok means the request is forwarded to the inner handler. -/
def bearer_auth_middleware (auth_config : AuthConfig) (authHeader : HeaderVal) :
    Except AuthError Unit :=
  if !auth_config.enabled then
    .ok ()
  else
    match auth_config.api_key with
    | none => .ok ()
    | some expected =>
      match authHeader with
      | .invalidBytes => .error (AuthError.mk "Unauthorized" "Invalid Authorization header format")
      | .missing => .error (AuthError.mk "Unauthorized" "Missing Authorization header")
      | .val s =>
        if !(s.startsWith "Bearer ") then
          .error (AuthError.mk "Unauthorized" "Authorization header must use Bearer token")
        else if (s.drop 7) != expected then
          .error (AuthError.mk "Unauthorized" "Invalid API key")
        else
          .ok ()

/-- Helper: a string fixed by rustTrim has its data fixed by both the
left-side dropWhile and the right-side rdropWhile. -/
theorem rustTrim_fixed_data {x : String} (h : rustTrim x = x) :
    List.dropWhile Char.isWhitespace x.data = x.data ∧
    List.rdropWhile Char.isWhitespace x.data = x.data := by
  have hd : List.rdropWhile Char.isWhitespace
      (List.dropWhile Char.isWhitespace x.data) = x.data := by
    have hmk := congrArg String.data h
    simpa [rustTrim] using hmk
  have hsuf : List.dropWhile Char.isWhitespace x.data <:+ x.data :=
    List.dropWhile_suffix _
  have hpre : List.rdropWhile Char.isWhitespace
      (List.dropWhile Char.isWhitespace x.data) <+: List.dropWhile Char.isWhitespace x.data :=
    List.rdropWhile_prefix _ _
  rw [hd] at hpre
  have hlen : (List.dropWhile Char.isWhitespace x.data).length = x.data.length :=
    Nat.le_antisymm hsuf.length_le hpre.length_le
  have hdx : List.dropWhile Char.isWhitespace x.data = x.data :=
    hsuf.eq_of_length hlen
  refine ⟨hdx, ?_⟩
  rw [hdx] at hd
  exact hd

/-- Helper: appending a newline to a nonempty string fixed by rustTrim and
trimming yields the string back. -/
theorem rustTrim_append_newline {x : String} (h : rustTrim x = x) (hne : x ≠ "") :
    rustTrim (x ++ "\n") = x := by
  obtain ⟨hdrop, hrdrop⟩ := rustTrim_fixed_data h
  have hdata : x.data ≠ [] := by
    intro hnil
    exact hne (String.ext (by simp [hnil]))
  obtain ⟨a, t, hat⟩ := List.exists_cons_of_ne_nil hdata
  have hhead : Char.isWhitespace a = false := by
    cases hw : Char.isWhitespace a with
    | false => rfl
    | true =>
      exfalso
      have h2 := hdrop
      rw [hat] at h2
      simp only [List.dropWhile_cons, hw, if_true] at h2
      have hle := (List.dropWhile_suffix (l := t) Char.isWhitespace).length_le
      rw [h2] at hle
      simp at hle
  apply String.ext
  show List.rdropWhile Char.isWhitespace
      (List.dropWhile Char.isWhitespace (x ++ "\n").data) = x.data
  rw [String.data_append]
  have hnl : ("\n" : String).data = ['\n'] := rfl
  rw [hnl, hat, List.cons_append, List.dropWhile_cons, hhead]
  simp only [Bool.false_eq_true, if_false]
  rw [← List.cons_append]
  rw [List.rdropWhile_concat_pos _ _ '\n' (by decide)]
  rw [← hat, hrdrop, hat]

/-- C1: for every query call, exactly one of three terminal outcomes occurs —
a line with non-whitespace content within the bounded wait is a success with
the trimmed line; end-of-stream before any line is a ProcessError naming the
closed connection (EOF); an elapsed wait is a ProcessError naming the
timeout; and a line that is whitespace-only after trimming is an error
distinct from the EOF error and from every success. -/
theorem query_three_terminal_outcomes (c : String) (ev : ReadEvent) :
    (∀ s, ev = ReadEvent.line s → rustTrim s ≠ "" →
      query (McpRequest.mk c) none none ev = .ok (McpResponse.mk (rustTrim s))) ∧
    (ev = ReadEvent.eof →
      query (McpRequest.mk c) none none ev
        = .error (.ProcessError "MCP server closed the connection (EOF)")) ∧
    (ev = ReadEvent.timedOut →
      query (McpRequest.mk c) none none ev
        = .error (.ProcessError "MCP server response timeout (30 seconds)")) ∧
    (∀ s, ev = ReadEvent.line s → rustTrim s = "" →
      query (McpRequest.mk c) none none ev
        = .error (.ProcessError "MCP server returned an empty line") ∧
      McpCoreError.ProcessError "MCP server returned an empty line"
        ≠ McpCoreError.ProcessError "MCP server closed the connection (EOF)" ∧
      ∀ r, query (McpRequest.mk c) none none ev ≠ .ok r) := by
  refine ⟨?_, ?_, ?_, ?_⟩
  · intro s hev hne
    subst hev
    simp [query, read_response_with_timeout, hne]
  · intro hev
    subst hev
    simp [query, read_response_with_timeout]
  · intro hev
    subst hev
    unfold query read_response_with_timeout query_timeout_secs
    rfl
  · intro s hev hemp
    subst hev
    refine ⟨by simp [query, read_response_with_timeout, hemp], by decide, ?_⟩
    intro r
    simp [query, read_response_with_timeout, hemp]

/-- Witness for C1 at a concrete input: the EOF outcome of a query. -/
theorem query_three_terminal_outcomes_witness :
    query (McpRequest.mk "x") none none ReadEvent.eof
      = .error (.ProcessError "MCP server closed the connection (EOF)") :=
  (query_three_terminal_outcomes "x" ReadEvent.eof).2.1 rfl

/-- C2 counterexample: against an echoing child, the input with a leading
space is not returned verbatim — the code trims leading whitespace too. -/
theorem query_echo_counterexample :
    echoQuery " a" = .ok (McpResponse.mk "a") ∧
    echoQuery " a" ≠ .ok (McpResponse.mk " a") := by decide

/-- C2 (amended): on success, query returns the line read from the child's
stdout trimmed of leading and trailing whitespace; against an echoing child,
query(x) returns x for every non-empty single-line x without embedded
newlines that carries no leading or trailing whitespace (rustTrim x = x). -/
theorem query_echo_roundtrip (x : String) (h : rustTrim x = x) (hne : x ≠ "") :
    echoQuery x = .ok (McpResponse.mk x) := by
  have htrim := rustTrim_append_newline h hne
  have hres : rustTrim (x ++ "\n") ≠ "" := by rw [htrim]; exact hne
  simp [echoQuery, query, read_response_with_timeout, hres, htrim, hne]

/-- Witness for C2 at a concrete input: the echoing child returns "hello". -/
theorem query_echo_roundtrip_witness :
    echoQuery "hello" = .ok (McpResponse.mk "hello") :=
  query_echo_roundtrip "hello" (by decide) (by decide)

/-- C3: the clone step is idempotent — when the .git marker already exists the
step is a no-op returning success without invoking the external clone, and
after any successful first call the second call against the same target path
never invokes the clone, still succeeds, and leaves the filesystem
unchanged. -/
theorem clone_step_idempotent (url wd : String) (fs : FS) (g1 g2 : CloneOutcome)
    (hok : (clone_repository_if_needed url wd fs g1).2.2 = .ok ()) :
    (fs.existsPath (wd ++ "/.git") = true →
      (clone_repository_if_needed url wd fs g1).2.1 = false ∧
      (clone_repository_if_needed url wd fs g1).1 = fs) ∧
    (clone_repository_if_needed url wd
        (clone_repository_if_needed url wd fs g1).1 g2).2.1 = false ∧
    (clone_repository_if_needed url wd
        (clone_repository_if_needed url wd fs g1).1 g2).2.2 = .ok () ∧
    (clone_repository_if_needed url wd
        (clone_repository_if_needed url wd fs g1).1 g2).1
      = (clone_repository_if_needed url wd fs g1).1 := by
  by_cases hm : fs.existsPath (wd ++ "/.git") = true
  · simp [clone_repository_if_needed, hm]
  · cases g1 with
    | launchError e => simp [clone_repository_if_needed, hm] at hok
    | completed s code =>
      cases s with
      | false => simp [clone_repository_if_needed, hm] at hok
      | true =>
        have hmark : (FS.mk ((wd ++ "/.git") :: fs.paths)).existsPath (wd ++ "/.git") = true := by
          simp [FS.existsPath]
        simp [clone_repository_if_needed, hm, hmark]

/-- Witness for C3 at a concrete input: after a successful first clone into an
empty filesystem, the second call does not invoke the external clone and
still succeeds. -/
theorem clone_step_idempotent_witness :
    (clone_repository_if_needed "u" "/tmp/mcp-servers/s"
        (clone_repository_if_needed "u" "/tmp/mcp-servers/s" (FS.mk [])
          (CloneOutcome.completed true (some 0))).1
        (CloneOutcome.completed false none)).2.1 = false ∧
    (clone_repository_if_needed "u" "/tmp/mcp-servers/s"
        (clone_repository_if_needed "u" "/tmp/mcp-servers/s" (FS.mk [])
          (CloneOutcome.completed true (some 0))).1
        (CloneOutcome.completed false none)).2.2 = .ok () :=
  have h := clone_step_idempotent "u" "/tmp/mcp-servers/s" (FS.mk [])
    (CloneOutcome.completed true (some 0)) (CloneOutcome.completed false none) (by decide)
  ⟨h.2.1, h.2.2.1⟩

/-- C4: evaluation of the build-command environment overlay at a colliding
key — the code inserts the spec-declared entries first and then every ambient
variable, so the ambient value, not the spec-declared one, wins the
collision. -/
theorem build_env_collision_ambient_wins :
    envLookup (execute_build_command_env
        [("KEY", "spec-value")] [("KEY", "ambient-value")]) "KEY"
      = some "ambient-value" ∧
    envLookup (execute_build_command_env
        [("KEY", "spec-value")] [("KEY", "ambient-value")]) "KEY"
      ≠ some "spec-value" := by decide

/-- C5 counterexample: selecting the unrecognized runtime name "ruby" fails
with a RuntimeError, not a ConfigurationError. -/
theorem create_runtime_not_configuration_error :
    create_runtime "ruby" = .error (.RuntimeError "Unsupported runtime type: ruby") ∧
    resultIsConfigurationError (create_runtime "ruby") = false := by decide

/-- C5 (amended): for every runtime name outside the recognized set (compared
case-insensitively), create_runtime fails with a RuntimeError naming the
offending value; the selector is a pure function, so no process is touched
before the failure. -/
theorem create_runtime_unrecognized (s : String)
    (h : recognizedRuntimeNames.contains (rustToLowercase s) = false) :
    create_runtime s = .error (.RuntimeError ("Unsupported runtime type: " ++ s)) := by
  unfold create_runtime
  split
  all_goals first
    | rfl
    | (rename_i heq; rw [heq] at h; exact absurd h (by decide))

/-- Witness for C5 at a concrete input: the name "ruby" is rejected with a
RuntimeError naming it. -/
theorem create_runtime_unrecognized_witness :
    create_runtime "ruby" = .error (.RuntimeError ("Unsupported runtime type: " ++ "ruby")) :=
  create_runtime_unrecognized "ruby" (by decide)

/-- Helper: every trace of start_mcp_process lists its steps in strictly
increasing pipeline order, so a clone always precedes a build and a build
always precedes the spawn. -/
theorem start_steps_ordered (config : McpServerConfig) (server_name : String)
    (ef : StartEffects) : orderedSteps (start_mcp_process config server_name ef).1 := by
  unfold start_mcp_process
  cases hrep : config.repository <;> cases hbc : config.build_command <;>
    cases hmk : ef.mkdirErr <;> simp only [] <;> (repeat' split) <;>
      simp [orderedSteps, stepRank]

/-- C6: a build command that exits non-zero makes the pipeline fail with a
ProcessError whose message carries the exit code, the spawn step is never
reached, and in every run of the pipeline the clone step (if any) precedes
the build step (if any), which precedes the spawn step. -/
theorem build_failure_stops_pipeline (config : McpServerConfig) (server_name : String)
    (ef : StartEffects) (cmd : String) (st : ExitStatus)
    (hmk : ef.mkdirErr = none)
    (hclone : ∀ url, config.repository = some url →
      (clone_repository_if_needed url (get_server_work_dir server_name) ef.fs ef.cloneOut).2.2
        = .ok ())
    (hcmd : config.build_command = some cmd)
    (hout : ef.buildOut = CmdOutcome.completed st)
    (hfail : st.success = false) :
    SetupStep.spawnStep ∉ (start_mcp_process config server_name ef).1 ∧
    (start_mcp_process config server_name ef).2
      = .error (.ProcessError
          ("Build command failed with exit code " ++ fmtOptInt st.code ++ ": " ++ cmd)) ∧
    ∀ (cfg : McpServerConfig) (nm : String) (ef2 : StartEffects),
      orderedSteps (start_mcp_process cfg nm ef2).1 := by
  refine ⟨?_, ?_, fun cfg nm ef2 => start_steps_ordered cfg nm ef2⟩ <;>
  · cases hrep : config.repository with
    | none =>
        simp [start_mcp_process, hmk, hrep, hcmd, hout, execute_build_command, hfail]
    | some url =>
        have hc := hclone url hrep
        simp [start_mcp_process, hmk, hrep, hcmd, hout, execute_build_command, hfail, hc]

/-- Witness for C6 at a concrete input: a build command exiting with code 2
yields the ProcessError naming the code and the spawn step is absent from the
trace. -/
theorem build_failure_stops_pipeline_witness :
    SetupStep.spawnStep ∉
      (start_mcp_process (McpServerConfig.mk none (some "make") "node" [] []) "s"
        (StartEffects.mk (FS.mk []) none (CloneOutcome.completed true none)
          (CmdOutcome.completed (ExitStatus.mk false (some 2))) none)).1 ∧
    (start_mcp_process (McpServerConfig.mk none (some "make") "node" [] []) "s"
        (StartEffects.mk (FS.mk []) none (CloneOutcome.completed true none)
          (CmdOutcome.completed (ExitStatus.mk false (some 2))) none)).2
      = .error (.ProcessError "Build command failed with exit code Some(2): make") :=
  have h := build_failure_stops_pipeline
    (McpServerConfig.mk none (some "make") "node" [] []) "s"
    (StartEffects.mk (FS.mk []) none (CloneOutcome.completed true none)
      (CmdOutcome.completed (ExitStatus.mk false (some 2))) none)
    "make" (ExitStatus.mk false (some 2)) rfl
    (fun _ hu => Option.noConfusion hu) rfl rfl rfl
  ⟨h.1, h.2.1⟩

/-- C7: during the initialize handshake, a reply that parses as JSON and
carries an explicit error field makes the handshake fail with a ProcessError,
while a reply that does not parse as JSON does not abort the handshake — the
initialized notification is still sent and, absent I/O errors, the handshake
returns success. -/
theorem initHandshake_defensive_parse (ef : InitEffects) (r : String)
    (hread : read_response_with_timeout init_timeout_secs ef.replyEvent = .ok r)
    (hw : ef.writeInitErr = none) (hf : ef.flushInitErr = none) :
    (∀ v e, ef.parsed = some v → v.getField "error" = some e →
      (initHandshake ef).2
        = .error (.ProcessError ("MCP initialization error: " ++ renderJVal e))) ∧
    (ef.parsed = none → ef.writeNotifErr = none → ef.flushNotifErr = none →
      initHandshake ef = (true, .ok ())) := by
  constructor
  · intro v e hp he
    simp [initHandshake, hw, hf, hread, hp, he]
  · intro hp hwn hfn
    simp [initHandshake, hw, hf, hread, hp, hwn, hfn]

/-- Witness for C7 at a concrete input: a parsed reply carrying an error
field fails the handshake with the corresponding ProcessError. -/
theorem initHandshake_defensive_parse_witness :
    (initHandshake (InitEffects.mk none none (ReadEvent.line "x\n")
        (some (JVal.obj (JObj.cons "error" JVal.null JObj.nil))) none none)).2
      = .error (.ProcessError ("MCP initialization error: " ++ renderJVal JVal.null)) :=
  (initHandshake_defensive_parse
    (InitEffects.mk none none (ReadEvent.line "x\n")
      (some (JVal.obj (JObj.cons "error" JVal.null JObj.nil))) none none)
    "x" (by decide) rfl rfl).1
    (JVal.obj (JObj.cons "error" JVal.null JObj.nil)) JVal.null rfl rfl

/-- C8: the working-tree path is a deterministic function of the server's
logical name alone — it is exactly the per-server subdirectory of
/tmp/mcp-servers — and directory creation is idempotent: creating the
directory when it already exists leaves the filesystem unchanged, and after
creation the directory exists. -/
theorem work_dir_deterministic (server_name : String) (fs : FS) :
    get_server_work_dir server_name = "/tmp/mcp-servers/" ++ server_name ∧
    createDirAll (createDirAll fs (get_server_work_dir server_name))
        (get_server_work_dir server_name)
      = createDirAll fs (get_server_work_dir server_name) ∧
    (createDirAll fs (get_server_work_dir server_name)).existsPath
        (get_server_work_dir server_name) = true := by
  have hex : (createDirAll fs (get_server_work_dir server_name)).existsPath
      (get_server_work_dir server_name) = true := by
    by_cases h : fs.existsPath (get_server_work_dir server_name) = true
    · simp [createDirAll, h]
    · unfold createDirAll
      rw [if_neg (by simp [h])]
      simp [FS.existsPath]
  refine ⟨rfl, ?_, hex⟩
  set g := createDirAll fs (get_server_work_dir server_name) with hg
  unfold createDirAll
  simp [hex]

/-- C9: when authentication is disabled or no API key is configured the
bearer-auth middleware forwards every request unchanged: it accepts, and its
outcome does not depend on the Authorization header; moreover enabled is
false whenever DISABLE_AUTH parses to true or HTTP_API_KEY is unset. -/
theorem auth_disabled_forwards (cfg : AuthConfig) (h1 h2 : HeaderVal)
    (h : cfg.enabled = false ∨ cfg.api_key = none) :
    bearer_auth_middleware cfg h1 = .ok () ∧
    bearer_auth_middleware cfg h1 = bearer_auth_middleware cfg h2 ∧
    (∀ k : Option String, (AuthConfig.from_env k (some "true")).enabled = false) ∧
    (∀ d : Option String, (AuthConfig.from_env none d).enabled = false) := by
  have hok : ∀ hh : HeaderVal, bearer_auth_middleware cfg hh = .ok () := by
    intro hh
    cases h with
    | inl he => simp [bearer_auth_middleware, he]
    | inr hk => cases hcase : cfg.enabled <;> simp [bearer_auth_middleware, hk, hcase]
  refine ⟨hok h1, (hok h1).trans (hok h2).symm, ?_, ?_⟩
  · intro k
    simp [AuthConfig.from_env, parseRustBool]
  · intro d
    simp [AuthConfig.from_env]

/-- Witness for C9 at a concrete input: with auth disabled, a request with no
Authorization header and a request with a bearer token get the same accepting
outcome. -/
theorem auth_disabled_forwards_witness :
    bearer_auth_middleware (AuthConfig.mk none false) HeaderVal.missing = .ok () ∧
    bearer_auth_middleware (AuthConfig.mk none false) HeaderVal.missing
      = bearer_auth_middleware (AuthConfig.mk none false) (HeaderVal.val "Bearer zzz") :=
  have h := auth_disabled_forwards (AuthConfig.mk none false) HeaderVal.missing
    (HeaderVal.val "Bearer zzz") (Or.inl rfl)
  ⟨h.1, h.2.1⟩

/-- C10: the bounded wait used by query is exactly 30 seconds, the same
constant the initialize handshake passes to the bounded read, and the timeout
error message reports that number of seconds. -/
theorem query_timeout_thirty_seconds (c : String) :
    query_timeout_secs = 30 ∧
    query_timeout_secs = init_timeout_secs ∧
    query (McpRequest.mk c) none none ReadEvent.timedOut
      = .error (.ProcessError
          ("MCP server response timeout (" ++ toString query_timeout_secs ++ " seconds)")) ∧
    "MCP server response timeout (" ++ toString query_timeout_secs ++ " seconds)"
      = "MCP server response timeout (30 seconds)" := by
  refine ⟨rfl, rfl, ?_, rfl⟩
  unfold query read_response_with_timeout
  rfl
